import Mathlib

/-!
Shallow embedding of the virtio MMIO transport core
(`src/virtio-devices/src/transport/mmio.rs`): the interrupt adapter,
the register decoder, the init state machine, the activator, and the
snapshot/restore path, together with theorems settling the frozen claims.

Machine integers are modelled as `Nat` with explicit truncation
(`% 2^32`, `% 2^64`, `% 2^16`) exactly where the source casts.
Fallible operations return `Except`/`Option`; a Rust panic (out of
bounds indexing) is modelled as a dedicated result constructor.
-/

namespace VirtioMmio

/-! Status bits of the virtio init state machine.  The constants live at
the crate root of the repository (outside `src/`); their values are the
ones the specification states in its section 4.C. -/

def DEVICE_INIT : Nat := 0
def DEVICE_ACKNOWLEDGE : Nat := 1
def DEVICE_DRIVER : Nat := 2
def DEVICE_DRIVER_OK : Nat := 4
def DEVICE_FEATURES_OK : Nat := 8
def DEVICE_FAILED : Nat := 128

/-! Constants defined in `mmio.rs` itself. -/

def VENDOR_ID : Nat := 0
def MMIO_MAGIC_VALUE : Nat := 0x74726976
def MMIO_VERSION : Nat := 2
def INTERRUPT_STATUS_USED_RING : Nat := 0x1
def INTERRUPT_STATUS_CONFIG_CHANGED : Nat := 0x2

def U16_MOD : Nat := 2 ^ 16
def U32_MOD : Nat := 2 ^ 32
def U64_MOD : Nat := 2 ^ 64

/-- Bitwise complement of a 64-bit value, modelling Rust `!v` on a
`usize` that was zero-extended from a `u32`; defined for `v < 2^64`. -/
def u64not (v : Nat) : Nat := v ^^^ (U64_MOD - 1)

/-- Little-endian `u32` decoded from the first four bytes of the data
buffer, modelling `LittleEndian::read_u32`; entries are bytes, so each
is truncated to 8 bits. -/
def readU32LE (data : List Nat) : Nat :=
  data.getD 0 0 % 256 + data.getD 1 0 % 256 * 256 + data.getD 2 0 % 256 * 65536 +
    data.getD 3 0 % 256 * 16777216

/-- Modelled from the spec: opaque virtqueue handle of the external
virtqueue library, carrying the per-queue scalar state the transport
reads and writes (section 3 of the specification: max size, size,
readiness, the three ring guest physical addresses, and the two
cursors). -/
structure Queue where
  max_size : Nat
  size : Nat
  ready : Bool
  desc_table : Nat
  avail_ring : Nat
  used_ring : Nat
  next_avail : Nat
  next_used : Nat
deriving DecidableEq

/-- Modelled from the spec: a fresh queue of the given maximum size
(`Queue::new` in the constructor path of the transport). -/
def Queue.new (max_size : Nat) : Queue :=
  { max_size := max_size
    size := max_size
    ready := false
    desc_table := 0
    avail_ring := 0
    used_ring := 0
    next_avail := 0
    next_used := 0 }

/-- Modelled from the spec: queue reset clears readiness, restores the
size to the maximum, and returns the ring addresses and cursors to their
initial zero values (specification section 4.C, scenario S2). -/
def Queue.reset (q : Queue) : Queue :=
  { q with
    ready := false
    size := q.max_size
    desc_table := 0
    avail_ring := 0
    used_ring := 0
    next_avail := 0
    next_used := 0 }

/-- Replace the low 32 bits of a 64-bit address (`set_..._address(Some(v), None)`). -/
def setLow32 (addr v : Nat) : Nat := addr / U32_MOD * U32_MOD + v % U32_MOD

/-- Replace the high 32 bits of a 64-bit address (`set_..._address(None, Some(v))`). -/
def setHigh32 (addr v : Nat) : Nat := v % U32_MOD * U32_MOD + addr % U32_MOD

/-- One shared-memory region of the backing device (offset and length),
as exposed through `get_shm_regions`. -/
structure ShmRegion where
  offset : Nat
  len : Nat
deriving DecidableEq

/-- The shared-memory region list of the backing device: a base guest
physical address plus the region list. -/
structure VirtioSharedMemoryList where
  addr : Nat
  region_list : List ShmRegion
deriving DecidableEq

/-- Modelled from the spec: the abstract backing-device interface of
specification section 6, restricted to the observations the transport
core makes of it.  `activate_ok` is the result of `activate` and
`reset_supported` tells whether `reset()` returns the previously
installed interrupt adapter. -/
structure Device where
  device_type : Nat
  features : Nat
  queue_max_sizes : List Nat
  shm_regions : Option VirtioSharedMemoryList
  activate_ok : Bool
  reset_supported : Bool
deriving DecidableEq

/-- Modelled from the spec: guest memory as an address-indexed store;
`readUsedIdx` is the ordering-qualified 16-bit read of the used index at
a queue used-ring address, returning `none` on a memory read error. -/
structure GuestMemory where
  readUsedIdx : Nat → Option Nat

/-- The activation record (`VirtioMmioDeviceActivator`): a frozen view of
the transport handed to the backing device.  `interrupt` records whether
the adapter was present when it was taken out of the transport,
`device_activated` is the value of the shared flag, and `barrier` tells
whether a two-party barrier is attached. -/
structure Activator where
  interrupt : Bool
  device : Device
  device_activated : Bool
  queues : List (Nat × Queue)
  barrier : Bool
deriving DecidableEq

/-- Observable outcome of `VirtioMmioDeviceActivator::activate`: the
surfaced result, the value of the shared `device_activated` flag after
the call, and whether the attached barrier was waited on. -/
structure ActivateOutcome where
  ok : Bool
  device_activated : Bool
  barrier_waited : Bool
deriving DecidableEq

/-- `VirtioMmioDeviceActivator::activate`: call the backing device's
`activate`; the `?` operator returns the error immediately, so the
store of `true` into the shared flag and the barrier wait only happen
on success. -/
def Activator.activate (a : Activator) : ActivateOutcome :=
  if a.device.activate_ok then
    { ok := true, device_activated := true, barrier_waited := a.barrier }
  else
    { ok := false, device_activated := a.device_activated, barrier_waited := false }

/-- The transport (`VirtioMmioDevice`).  Guest memory and the backing
device are passed as parameters to the operations that consult them;
`virtio_interrupt` records whether the interrupt adapter is currently
installed (`Option` presence in the source), and `pending_activations`
is the shared list of prepared activation records. -/
structure VirtioMmioDevice where
  device_activated : Bool
  features_select : Nat
  acked_features_select : Nat
  queue_select : Nat
  interrupt_status : Nat
  driver_status : Nat
  config_generation : Nat
  queues : List Queue
  shm_region_select : Nat
  virtio_interrupt : Bool
  pending_activations : List Activator
deriving DecidableEq

/-- `VirtioMmioDevice::new`: fresh transport for a backing device; one
queue per declared maximum size, all registers zero, adapter installed. -/
def new (d : Device) : VirtioMmioDevice :=
  { device_activated := false
    features_select := 0
    acked_features_select := 0
    queue_select := 0
    interrupt_status := 0
    driver_status := DEVICE_INIT
    config_generation := 0
    queues := d.queue_max_sizes.map Queue.new
    shm_region_select := 0
    virtio_interrupt := true
    pending_activations := [] }

def is_driver_ready (s : VirtioMmioDevice) : Bool :=
  s.driver_status == (DEVICE_ACKNOWLEDGE ||| DEVICE_DRIVER ||| DEVICE_DRIVER_OK ||| DEVICE_FEATURES_OK)
    && s.driver_status &&& DEVICE_FAILED == 0

def is_driver_init (s : VirtioMmioDevice) : Bool :=
  s.driver_status == DEVICE_INIT

def needs_activation (s : VirtioMmioDevice) : Bool :=
  !s.device_activated && is_driver_ready s

/-- `with_queue_mut`: apply `f` to the queue selected by `queue_select`
when the selector is in range, otherwise drop the write silently. -/
def withQueueMut (s : VirtioMmioDevice) (f : Queue → Queue) : VirtioMmioDevice :=
  match s.queues.get? s.queue_select with
  | some q => { s with queues := s.queues.set s.queue_select (f q) }
  | none => s

/-- The `(shm_offset, shm_len)` pair computed by the `0xb0..=0xbc` read
arm.  No region list, or a selector strictly greater than the list
length, yields `(0, !0u64)`; a selector equal to the list length indexes
one past the end, which in the source is an out-of-bounds panic,
modelled here as `none`. -/
def shmQuery (d : Device) (s : VirtioMmioDevice) : Option (Nat × Nat) :=
  match d.shm_regions with
  | some shm =>
    if shm.region_list.length < s.shm_region_select then
      some (0, U64_MOD - 1)
    else
      match shm.region_list.get? s.shm_region_select with
      | some r => some ((r.offset + shm.addr) % U64_MOD, r.len)
      | none => none
  | none => some (0, U64_MOD - 1)

/-- Result of one MMIO read: `noUpdate` models the paths that return
without writing the data buffer (bad width, unknown control offset, out
of range), `value v` a 4-byte little-endian register value,
`configForward off` a pass-through to `read_config(off)`, and `panic`
the out-of-bounds shared-memory indexing. -/
inductive ReadResult where
  | noUpdate
  | value (v : Nat)
  | configForward (off : Nat)
  | panic
deriving DecidableEq

/-- `BusDevice::read` for `VirtioMmioDevice`.  The source never assigns
a transport field in `read`, so the model is a pure function of the
state. -/
def read (d : Device) (s : VirtioMmioDevice) (offset : Nat) (len : Nat) : ReadResult :=
  if offset ≤ 0xff then
    if len = 4 then
      if offset = 0x0 then .value MMIO_MAGIC_VALUE
      else if offset = 0x04 then .value MMIO_VERSION
      else if offset = 0x08 then .value d.device_type
      else if offset = 0x0c then .value VENDOR_ID
      else if offset = 0x10 then
        .value (if s.features_select < 2 then d.features >>> (s.features_select * 32) % U32_MOD else 0)
      else if offset = 0x34 then
        .value (((s.queues.get? s.queue_select).map (fun q => q.max_size)).getD 0)
      else if offset = 0x44 then
        .value (((s.queues.get? s.queue_select).map (fun q => if q.ready then 1 else 0)).getD 0)
      else if offset = 0x60 then .value (s.interrupt_status % U32_MOD)
      else if offset = 0x70 then .value s.driver_status
      else if offset = 0xfc then .value s.config_generation
      else if 0xb0 ≤ offset ∧ offset ≤ 0xbc then
        match shmQuery d s with
        | none => .panic
        | some (shm_offset, shm_len) =>
          if offset = 0xb0 then .value (shm_len % U32_MOD)
          else if offset = 0xb4 then .value (shm_len / U32_MOD % U32_MOD)
          else if offset = 0xb8 then .value (shm_offset % U32_MOD)
          else if offset = 0xbc then .value (shm_offset / U32_MOD % U32_MOD)
          else .value 0
      else .noUpdate
    else .noUpdate
  else if offset ≤ 0xfff then .configForward (offset - 0x100)
  else .noUpdate

/-- The register-mutation phase of a 4-byte control-window write: the
inner `match offset` of `BusDevice::write`.  Offset `0x20` only calls
`ack_features` on the backing device and leaves the transport state
unchanged; unknown offsets only log. -/
def regWrite (s : VirtioMmioDevice) (offset v : Nat) : VirtioMmioDevice :=
  if offset = 0x14 then { s with features_select := v }
  else if offset = 0x20 then s
  else if offset = 0x24 then { s with acked_features_select := v }
  else if offset = 0x30 then { s with queue_select := v }
  else if offset = 0x38 then withQueueMut s (fun q => { q with size := v % U16_MOD })
  else if offset = 0x44 then withQueueMut s (fun q => { q with ready := v == 1 })
  else if offset = 0x64 then
    { s with interrupt_status := s.interrupt_status &&& u64not v }
  else if offset = 0x70 then { s with driver_status := v }
  else if offset = 0x80 then withQueueMut s (fun q => { q with desc_table := setLow32 q.desc_table v })
  else if offset = 0x84 then withQueueMut s (fun q => { q with desc_table := setHigh32 q.desc_table v })
  else if offset = 0x90 then withQueueMut s (fun q => { q with avail_ring := setLow32 q.avail_ring v })
  else if offset = 0x94 then withQueueMut s (fun q => { q with avail_ring := setHigh32 q.avail_ring v })
  else if offset = 0xa0 then withQueueMut s (fun q => { q with used_ring := setLow32 q.used_ring v })
  else if offset = 0xa4 then withQueueMut s (fun q => { q with used_ring := setHigh32 q.used_ring v })
  else if offset = 0xac then { s with shm_region_select := v }
  else s

/-- The decode phase of `BusDevice::write`: the control window decodes
only 4-byte accesses; the config window and out-of-range offsets leave
the transport state untouched (`write_config` only reaches the backing
device). -/
def writePre (s : VirtioMmioDevice) (offset : Nat) (data : List Nat) : VirtioMmioDevice :=
  if offset ≤ 0xff then
    if data.length = 4 then regWrite s offset (readU32LE data) else s
  else s

/-- `ready` queues paired with their indices, as collected by
`prepare_activator` (the cloned event objects are not modelled). -/
def readyQueues (qs : List Queue) : List (Nat × Queue) :=
  qs.enum.filter (fun p => p.2.ready)

/-- `prepare_activator`: freeze the ready queues, take the interrupt
adapter out of the transport, and attach the optional barrier. -/
def prepare_activator (d : Device) (s : VirtioMmioDevice) (barrier : Bool) : Activator :=
  { interrupt := s.virtio_interrupt
    device := d
    device_activated := s.device_activated
    queues := readyQueues s.queues
    barrier := barrier }

/-- Outcome of one `BusDevice::write`: the new transport state, whether
a barrier was returned to the dispatcher, whether an activation record
was pushed onto `pending_activations`, and whether the post-write
device-reset branch ran. -/
structure WriteOutcome where
  state : VirtioMmioDevice
  barrier : Bool
  pushed : Bool
  resetPerformed : Bool
deriving DecidableEq

/-- `BusDevice::write` for `VirtioMmioDevice`: decode the access, then
re-evaluate the two post-write conditions.  Needing activation builds an
activator with a fresh barrier, pushes it, and returns the barrier; a
driver-requested reset on an activated device invokes the backing
device's `reset`, either re-installing the returned adapter and
resetting every queue, or setting the FAILED status bit when reset is
unsupported. -/
def write (d : Device) (s : VirtioMmioDevice) (offset : Nat) (data : List Nat) : WriteOutcome :=
  let s1 := writePre s offset data
  if needs_activation s1 then
    let act := prepare_activator d s1 true
    { state := { s1 with
                 virtio_interrupt := false
                 pending_activations := s1.pending_activations ++ [act] }
      barrier := true
      pushed := true
      resetPerformed := false }
  else if s1.device_activated && is_driver_init s1 then
    if d.reset_supported then
      { state := { s1 with
                   virtio_interrupt := true
                   device_activated := false
                   queues := s1.queues.map Queue.reset
                   queue_select := 0 }
        barrier := false
        pushed := false
        resetPerformed := true }
    else
      { state := { s1 with driver_status := DEVICE_FAILED }
        barrier := false
        pushed := false
        resetPerformed := true }
  else
    { state := s1, barrier := false, pushed := false, resetPerformed := false }

/-- Per-queue record of the versioned snapshot state (`QueueState`). -/
structure QueueState where
  max_size : Nat
  size : Nat
  ready : Bool
  desc_table : Nat
  avail_ring : Nat
  used_ring : Nat
deriving DecidableEq

/-- The versioned snapshot record (`VirtioMmioDeviceState`). -/
structure VirtioMmioDeviceState where
  device_activated : Bool
  features_select : Nat
  acked_features_select : Nat
  queue_select : Nat
  interrupt_status : Nat
  driver_status : Nat
  queues : List QueueState
  shm_region_select : Nat
deriving DecidableEq

/-- The per-queue record captured by `VirtioMmioDevice::state`. -/
def Queue.queueState (q : Queue) : QueueState :=
  { max_size := q.max_size
    size := q.size
    ready := q.ready
    desc_table := q.desc_table
    avail_ring := q.avail_ring
    used_ring := q.used_ring }

/-- `VirtioMmioDevice::state`: capture the scalar state and one record
per queue.  The snapshot blob is a deterministic serialization of this
record, so blob equality is modelled as record equality. -/
def state (s : VirtioMmioDevice) : VirtioMmioDeviceState :=
  { device_activated := s.device_activated
    features_select := s.features_select
    acked_features_select := s.acked_features_select
    queue_select := s.queue_select
    interrupt_status := s.interrupt_status
    driver_status := s.driver_status
    queues := s.queues.map Queue.queueState
    shm_region_select := s.shm_region_select }

/-- Errors of the restore path.  `MissingQueueState` models the
out-of-bounds panic when the snapshot carries fewer queue records than
the transport has queues. -/
inductive RestoreError where
  | QueueRingIndex
  | MissingQueueState
  | ActivateFailed
  | SnapshotMissing
deriving DecidableEq

/-- The per-queue body of the `set_state` loop: apply size, readiness
and the three ring addresses from the record (the commented-out source
line leaves `max_size` untouched), then set both cursors to the used
index read from guest memory; a failed read is a queue-ring-index
error. -/
def restoreQueue (mem : GuestMemory) (q : Queue) (qs : QueueState) : Except RestoreError Queue :=
  let q1 := { q with
              size := qs.size
              ready := qs.ready
              desc_table := qs.desc_table
              avail_ring := qs.avail_ring
              used_ring := qs.used_ring }
  match mem.readUsedIdx q1.used_ring with
  | some idx => .ok { q1 with next_avail := idx, next_used := idx }
  | none => .error .QueueRingIndex

/-- The `set_state` loop over the transport queues and the snapshot
queue records. -/
def restoreQueues (mem : GuestMemory) : List Queue → List QueueState → Except RestoreError (List Queue)
  | [], _ => .ok []
  | _ :: _, [] => .error .MissingQueueState
  | q :: qs, st :: sts =>
    match restoreQueue mem q st with
    | .error e => .error e
    | .ok q2 =>
      match restoreQueues mem qs sts with
      | .error e => .error e
      | .ok rest => .ok (q2 :: rest)

/-- `VirtioMmioDevice::set_state`: restore every scalar field and run
the per-queue loop (the source mutates the scalars before the loop; the
model applies them together, which agrees with the source on every
non-error path). -/
def set_state (mem : GuestMemory) (s : VirtioMmioDevice) (st : VirtioMmioDeviceState) :
    Except RestoreError VirtioMmioDevice :=
  match restoreQueues mem s.queues st.queues with
  | .error e => .error e
  | .ok qs =>
    .ok { s with
          device_activated := st.device_activated
          features_select := st.features_select
          acked_features_select := st.acked_features_select
          queue_select := st.queue_select
          interrupt_status := st.interrupt_status
          driver_status := st.driver_status
          queues := qs
          shm_region_select := st.shm_region_select }

/-- `Snapshottable::restore`: a missing section is an error; otherwise
apply `set_state` and, when the restored transport is activated with the
driver ready, run the direct activation (`prepare_activator(None)`
followed by `activate`), which takes the interrupt adapter and stores
`true` into the shared flag. -/
def restore (d : Device) (mem : GuestMemory) (s : VirtioMmioDevice)
    (snap : Option VirtioMmioDeviceState) : Except RestoreError VirtioMmioDevice :=
  match snap with
  | none => .error .SnapshotMissing
  | some st =>
    match set_state mem s st with
    | .error e => .error e
    | .ok s1 =>
      if s1.device_activated && is_driver_ready s1 then
        if d.activate_ok then
          .ok { s1 with virtio_interrupt := false, device_activated := true }
        else .error .ActivateFailed
      else .ok s1

/-- The virtio interrupt kinds handled by the adapter. -/
inductive VirtioInterruptType where
  | Config
  | Queue (index : Nat)
deriving DecidableEq

/-- Outcome of one adapter trigger: the new `interrupt_status` word and
the vector the sink was fired on. -/
structure TriggerResult where
  interrupt_status : Nat
  vector : Nat
deriving DecidableEq

/-- `VirtioInterruptIntx::trigger`: map the interrupt kind to its status
bit (the queue index is dropped), OR it into the shared status word, and
fire the sink on vector 0. -/
def trigger (t : VirtioInterruptType) (st : Nat) : TriggerResult :=
  let status := match t with
    | .Config => INTERRUPT_STATUS_CONFIG_CHANGED
    | .Queue _ => INTERRUPT_STATUS_USED_RING
  { interrupt_status := st ||| status, vector := 0 }

/-- Fold a list of queue-interrupt triggers over the status word. -/
def triggerMany (ks : List Nat) (st : Nat) : Nat :=
  ks.foldl (fun acc k => (trigger (.Queue k) acc).interrupt_status) st

/-- One MMIO write request: offset and data bytes. -/
structure MmioWrite where
  offset : Nat
  data : List Nat
deriving DecidableEq

/-- Run a sequence of writes, keeping only the final state. -/
def runWrites (d : Device) : VirtioMmioDevice → List MmioWrite → VirtioMmioDevice
  | s, [] => s
  | s, w :: ws => runWrites d (write d s w.offset w.data).state ws

/-- True when, along the run, no write ever leaves the decoded register
state with the driver-ready status word. -/
def neverReady (d : Device) : VirtioMmioDevice → List MmioWrite → Bool
  | _, [] => true
  | s, w :: ws =>
    !is_driver_ready (writePre s w.offset w.data)
      && neverReady d (write d s w.offset w.data).state ws

/-- True when some write of the run returned a barrier. -/
def anyBarrier (d : Device) : VirtioMmioDevice → List MmioWrite → Bool
  | _, [] => false
  | s, w :: ws => (write d s w.offset w.data).barrier || anyBarrier d (write d s w.offset w.data).state ws

/-- True when some write of the run pushed an activation record. -/
def anyPush (d : Device) : VirtioMmioDevice → List MmioWrite → Bool
  | _, [] => false
  | s, w :: ws => (write d s w.offset w.data).pushed || anyPush d (write d s w.offset w.data).state ws

/-- True when some post-write state of the run has the device activated. -/
def everActivated (d : Device) : VirtioMmioDevice → List MmioWrite → Bool
  | _, [] => false
  | s, w :: ws => (write d s w.offset w.data).state.device_activated
      || everActivated d (write d s w.offset w.data).state ws

/-- The decoded 4-byte read offsets of the control window. -/
def decodedControlRead (off : Nat) : Prop :=
  off = 0x0 ∨ off = 0x04 ∨ off = 0x08 ∨ off = 0x0c ∨ off = 0x10 ∨ off = 0x34 ∨
    off = 0x44 ∨ off = 0x60 ∨ off = 0x70 ∨ off = 0xfc ∨ (0xb0 ≤ off ∧ off ≤ 0xbc)

instance (off : Nat) : Decidable (decodedControlRead off) := by
  unfold decodedControlRead; infer_instance

/-- A fallback transport value used only to destructure `Except` results
of concrete computations in witnesses. -/
def emptyDev : VirtioMmioDevice :=
  { device_activated := false
    features_select := 0
    acked_features_select := 0
    queue_select := 0
    interrupt_status := 0
    driver_status := 0
    config_generation := 0
    queues := []
    shm_region_select := 0
    virtio_interrupt := false
    pending_activations := [] }

/-- Extract the success value of a concrete restore computation. -/
def exOk (e : Except RestoreError VirtioMmioDevice) : VirtioMmioDevice :=
  match e with
  | .ok v => v
  | .error _ => emptyDev

/-- Fallback queue used by index-with-default lookups in statements. -/
def defaultQueue : Queue := Queue.new 0

/-- Fallback queue record used by index-with-default lookups in statements. -/
def defaultQueueState : QueueState :=
  { max_size := 0, size := 0, ready := false, desc_table := 0, avail_ring := 0, used_ring := 0 }

/-! Concrete instances used by counterexamples and witnesses. -/

/-- A backing device whose `activate` fails. -/
def devActFail : Device :=
  { device_type := 0
    features := 0
    queue_max_sizes := [16]
    shm_regions := none
    activate_ok := false
    reset_supported := false }

/-- An activation record with an attached barrier whose backing device
refuses activation. -/
def actFail : Activator :=
  { interrupt := true
    device := devActFail
    device_activated := false
    queues := []
    barrier := true }

/-- A backing device with one queue, no shared-memory regions,
successful activation and supported reset. -/
def dW : Device :=
  { device_type := 3
    features := 6
    queue_max_sizes := [16]
    shm_regions := none
    activate_ok := true
    reset_supported := true }

/-- The same backing device with reset unsupported. -/
def dNoReset : Device := { dW with reset_supported := false }

/-- A backing device exposing one shared-memory region. -/
def dShm : Device :=
  { dW with shm_regions := some { addr := 0x1000, region_list := [{ offset := 0x20, len := 0x40 }] } }

/-- Guest memory whose used-index reads always yield 7. -/
def memW : GuestMemory := { readUsedIdx := fun _ => some 7 }

/-- Guest memory whose used-index reads always fail. -/
def memFail : GuestMemory := { readUsedIdx := fun _ => none }

/-- A configured queue used by the snapshot round-trip witnesses. -/
def qW : Queue :=
  { max_size := 16
    size := 8
    ready := true
    desc_table := 0x10000
    avail_ring := 0x11000
    used_ring := 0x12000
    next_avail := 2
    next_used := 2 }

/-- A configured transport about to be snapshotted. -/
def sW7 : VirtioMmioDevice :=
  { VirtioMmio.new dW with
    queues := [qW]
    driver_status := 15
    interrupt_status := 1
    features_select := 1
    acked_features_select := 1 }

/-- An activated transport whose driver wrote status zero through the
decoded register already; used by the reset witnesses. -/
def sAct : VirtioMmioDevice :=
  { VirtioMmio.new dW with device_activated := true, driver_status := 5, queue_select := 1 }

/-- An activated transport with driver status zero and a nonzero queue
selector; reachable only through restore, it exhibits the reset branch
firing on a malformed-width write. -/
def sXreset : VirtioMmioDevice :=
  { VirtioMmio.new dW with device_activated := true, queue_select := 5 }

/-! ## Helper lemmas -/

lemma withQueueMut_device_activated (s : VirtioMmioDevice) (f : Queue → Queue) :
    (withQueueMut s f).device_activated = s.device_activated := by
  unfold withQueueMut
  cases s.queues.get? s.queue_select <;> rfl

lemma withQueueMut_pending (s : VirtioMmioDevice) (f : Queue → Queue) :
    (withQueueMut s f).pending_activations = s.pending_activations := by
  unfold withQueueMut
  cases s.queues.get? s.queue_select <;> rfl

lemma regWrite_frame (s : VirtioMmioDevice) (off v : Nat) :
    (regWrite s off v).device_activated = s.device_activated ∧
    (regWrite s off v).pending_activations = s.pending_activations := by
  by_cases h1 : off = 0x14
  · subst h1; exact ⟨rfl, rfl⟩
  by_cases h2 : off = 0x20
  · subst h2; exact ⟨rfl, rfl⟩
  by_cases h3 : off = 0x24
  · subst h3; exact ⟨rfl, rfl⟩
  by_cases h4 : off = 0x30
  · subst h4; exact ⟨rfl, rfl⟩
  by_cases h5 : off = 0x38
  · subst h5; exact ⟨withQueueMut_device_activated s _, withQueueMut_pending s _⟩
  by_cases h6 : off = 0x44
  · subst h6; exact ⟨withQueueMut_device_activated s _, withQueueMut_pending s _⟩
  by_cases h7 : off = 0x64
  · subst h7; exact ⟨rfl, rfl⟩
  by_cases h8 : off = 0x70
  · subst h8; exact ⟨rfl, rfl⟩
  by_cases h9 : off = 0x80
  · subst h9; exact ⟨withQueueMut_device_activated s _, withQueueMut_pending s _⟩
  by_cases h10 : off = 0x84
  · subst h10; exact ⟨withQueueMut_device_activated s _, withQueueMut_pending s _⟩
  by_cases h11 : off = 0x90
  · subst h11; exact ⟨withQueueMut_device_activated s _, withQueueMut_pending s _⟩
  by_cases h12 : off = 0x94
  · subst h12; exact ⟨withQueueMut_device_activated s _, withQueueMut_pending s _⟩
  by_cases h13 : off = 0xa0
  · subst h13; exact ⟨withQueueMut_device_activated s _, withQueueMut_pending s _⟩
  by_cases h14 : off = 0xa4
  · subst h14; exact ⟨withQueueMut_device_activated s _, withQueueMut_pending s _⟩
  by_cases h15 : off = 0xac
  · subst h15; exact ⟨rfl, rfl⟩
  unfold regWrite
  rw [if_neg h1, if_neg h2, if_neg h3, if_neg h4, if_neg h5, if_neg h6, if_neg h7,
    if_neg h8, if_neg h9, if_neg h10, if_neg h11, if_neg h12, if_neg h13, if_neg h14,
    if_neg h15]
  exact ⟨rfl, rfl⟩

lemma writePre_device_activated (s : VirtioMmioDevice) (off : Nat) (data : List Nat) :
    (writePre s off data).device_activated = s.device_activated := by
  unfold writePre
  split_ifs <;> first | rfl | exact (regWrite_frame s off (readU32LE data)).1

lemma writePre_pending (s : VirtioMmioDevice) (off : Nat) (data : List Nat) :
    (writePre s off data).pending_activations = s.pending_activations := by
  unfold writePre
  split_ifs <;> first | rfl | exact (regWrite_frame s off (readU32LE data)).2

lemma shmQuery_no_region (d : Device) (s : VirtioMmioDevice)
    (h : d.shm_regions = none ∨
      ∃ shm, d.shm_regions = some shm ∧ shm.region_list.length < s.shm_region_select) :
    shmQuery d s = some (0, U64_MOD - 1) := by
  rcases h with h | ⟨shm, h1, h2⟩
  · simp [shmQuery, h]
  · simp [shmQuery, h1, h2]

/-! ## Claim C1 -/

/-- Claim C1 is false on the code: with a backing device whose activate
call fails and a barrier attached, the activator surfaces the error and
leaves the transport unactivated, but the early return of the error
skips the barrier wait, so the barrier is not waited on. -/
theorem C1_counterexample :
    actFail.barrier = true ∧
    (Activator.activate actFail).ok = false ∧
    (Activator.activate actFail).barrier_waited = false := by
  decide

/-- Claim C1 (amended): when the backing-device activate call of an
Activator fails, the error is surfaced to the caller and the shared
`device_activated` flag is left at its prior value (false in the
activation cycle), but the attached barrier is NOT waited on: the
activator returns before the wait, so a dispatcher blocked on that
barrier is not released by this path. -/
theorem C1_activate_error (a : Activator) (h : a.device.activate_ok = false) :
    (Activator.activate a).ok = false ∧
    (Activator.activate a).device_activated = a.device_activated ∧
    (Activator.activate a).barrier_waited = false := by
  simp [Activator.activate, h]

/-- Witness for C1: the amended theorem applied to the concrete failing
activator. -/
theorem C1_witness :
    actFail.device.activate_ok = false ∧
    ((Activator.activate actFail).ok = false ∧
      (Activator.activate actFail).device_activated = actFail.device_activated ∧
      (Activator.activate actFail).barrier_waited = false) :=
  ⟨by decide, C1_activate_error actFail (by decide)⟩

/-! ## Claim C2 -/

/-- Claim C2 is false on the code: with no shared-memory regions, the
4-byte read at 0xB8 (region offset, low half) returns 0, not the
truncated all-ones value the claim requires for both fields. -/
theorem C2_counterexample :
    read dW (VirtioMmio.new dW) 0xb8 4 = .value 0 ∧
    ReadResult.value 0 ≠ ReadResult.value (U32_MOD - 1) := by
  decide

/-- Claim C2 (amended): if the device reports no shared-memory regions,
or `shm_region_select` strictly exceeds the region list length, the
region-length reads (0xB0 low, 0xB4 high) return the all-ones value
`!0u64` truncated per 32-bit field, while the region-offset reads
(0xB8 low, 0xBC high) return zero. -/
theorem C2_shm_no_region (d : Device) (s : VirtioMmioDevice)
    (h : d.shm_regions = none ∨
      ∃ shm, d.shm_regions = some shm ∧ shm.region_list.length < s.shm_region_select) :
    read d s 0xb0 4 = .value (U32_MOD - 1) ∧
    read d s 0xb4 4 = .value (U32_MOD - 1) ∧
    read d s 0xb8 4 = .value 0 ∧
    read d s 0xbc 4 = .value 0 := by
  have hq := shmQuery_no_region d s h
  refine ⟨?_, ?_, ?_, ?_⟩ <;>
    · norm_num [read, hq, U64_MOD, U32_MOD]

/-- Witness for C2: the amended theorem applied to the concrete device
without shared-memory regions. -/
theorem C2_witness :
    (dW.shm_regions = none ∨
      ∃ shm, dW.shm_regions = some shm ∧
        shm.region_list.length < (VirtioMmio.new dW).shm_region_select) ∧
    (read dW (VirtioMmio.new dW) 0xb0 4 = .value (U32_MOD - 1) ∧
      read dW (VirtioMmio.new dW) 0xb4 4 = .value (U32_MOD - 1) ∧
      read dW (VirtioMmio.new dW) 0xb8 4 = .value 0 ∧
      read dW (VirtioMmio.new dW) 0xbc 4 = .value 0) :=
  ⟨Or.inl (by decide), C2_shm_no_region dW (VirtioMmio.new dW) (Or.inl (by decide))⟩

/-! ## Claim C3 -/

/-- Claim C3: when the backing device reports a region list of length n
and the selector equals exactly n, the guard (a strict greater-than
comparison) does not catch the boundary, the read indexes one past the
end of the region list, and the access panics instead of returning the
all-ones value at every one of the four shared-memory register
offsets. -/
theorem C3_shm_boundary_panic (d : Device) (shm : VirtioSharedMemoryList)
    (s : VirtioMmioDevice) (h1 : d.shm_regions = some shm)
    (h2 : s.shm_region_select = shm.region_list.length) :
    read d s 0xb0 4 = .panic ∧ read d s 0xb4 4 = .panic ∧
    read d s 0xb8 4 = .panic ∧ read d s 0xbc 4 = .panic := by
  have hq : shmQuery d s = none := by
    simp [shmQuery, h1, h2, List.get?_eq_none]
  refine ⟨?_, ?_, ?_, ?_⟩ <;>
    · norm_num [read, hq]

/-- Witness for C3: the device with one shared-memory region and the
selector equal to 1. -/
theorem C3_witness :
    (∃ shm, dShm.shm_regions = some shm ∧
      ({ VirtioMmio.new dShm with shm_region_select := 1 } : VirtioMmioDevice).shm_region_select =
        shm.region_list.length) ∧
    read dShm { VirtioMmio.new dShm with shm_region_select := 1 } 0xb0 4 = .panic :=
  ⟨⟨_, rfl, by decide⟩,
    (C3_shm_boundary_panic dShm _ { VirtioMmio.new dShm with shm_region_select := 1 }
      rfl (by decide)).1⟩

/-! ## Claim C9 -/

lemma land_lor_self (x b : Nat) : (x ||| b) &&& b = b := by
  apply Nat.eq_of_testBit_eq
  intro i
  rw [Nat.testBit_land, Nat.testBit_lor]
  cases x.testBit i <;> cases b.testBit i <;> rfl

lemma land_lor_of_land (x y b : Nat) (h : x &&& b = b) : (x ||| y) &&& b = b := by
  apply Nat.eq_of_testBit_eq
  intro i
  have hi := congrArg (fun t => t.testBit i) h
  simp only [Nat.testBit_land] at hi
  rw [Nat.testBit_land, Nat.testBit_lor]
  cases hb : b.testBit i
  · simp
  · rw [hb] at hi
    simp only [Bool.and_true] at hi
    simp [hi]

lemma triggerMany_preserve (ks : List Nat) :
    ∀ st : Nat, st &&& 1 = 1 → triggerMany ks st &&& 1 = 1 := by
  induction ks with
  | nil => intro st h; exact h
  | cons k ks ih =>
    intro st h
    simp only [triggerMany, List.foldl_cons]
    exact ih _ (land_lor_of_land st 1 1 h)

/-- Claim C9: the interrupt adapter maps every queue interrupt (any
index) to an OR of exactly bit 0x1 into the status word, a config
interrupt to an OR of exactly bit 0x2, fires the sink on vector 0 on
every trigger; a 4-byte guest write of value v to offset 0x64 sets the
status word to `old AND NOT v` (clearing exactly the bits of v, within
the 64-bit word); consequently after one or more queue triggers bit 0x1
is set, and after one config trigger bit 0x2 is set. -/
theorem C9_interrupt_adapter :
    (∀ (k st : Nat), trigger (.Queue k) st = ⟨st ||| 1, 0⟩) ∧
    (∀ st : Nat, trigger .Config st = ⟨st ||| 2, 0⟩) ∧
    (∀ (s : VirtioMmioDevice) (data : List Nat), data.length = 4 →
      (writePre s 0x64 data).interrupt_status =
        s.interrupt_status &&& u64not (readU32LE data)) ∧
    (∀ st v i : Nat, st < U64_MOD → v < U32_MOD →
      Nat.testBit (st &&& u64not v) i = (Nat.testBit st i && !Nat.testBit v i)) ∧
    (∀ (ks : List Nat) (st : Nat), ks ≠ [] → triggerMany ks st &&& 1 = 1) ∧
    (∀ st : Nat, (trigger .Config st).interrupt_status &&& 2 = 2) := by
  refine ⟨fun k st => rfl, fun st => rfl, ?_, ?_, ?_, fun st => land_lor_self st 2⟩
  · intro s data hlen
    simp only [writePre, regWrite, hlen]
    norm_num
  · intro st v i hst hv
    unfold u64not U64_MOD at *
    rw [Nat.testBit_land, Nat.testBit_xor, Nat.testBit_two_pow_sub_one]
    by_cases hi : i < 64
    · simp [hi]
    · have h1 : st.testBit i = false :=
        Nat.testBit_lt_two_pow
          (lt_of_lt_of_le hst (Nat.pow_le_pow_right (by norm_num) (by omega)))
      have h2 : v.testBit i = false :=
        Nat.testBit_lt_two_pow
          (lt_of_lt_of_le hv (Nat.pow_le_pow_right (by norm_num) (by omega)))
      simp [hi, h1, h2]
  · intro ks st hks
    cases ks with
    | nil => exact absurd rfl hks
    | cons k ks =>
      simp only [triggerMany, List.foldl_cons]
      exact triggerMany_preserve ks _ (land_lor_self st 1)

/-- Witness for C9: the adapter theorem instantiated at concrete status
words, a concrete acknowledgement write, and a concrete trigger
sequence. -/
theorem C9_witness :
    trigger (.Queue 3) 5 = ⟨5 ||| 1, 0⟩ ∧
    trigger .Config 5 = ⟨5 ||| 2, 0⟩ ∧
    (writePre { emptyDev with interrupt_status := 3 } 0x64 [1, 0, 0, 0]).interrupt_status =
      3 &&& u64not 1 ∧
    Nat.testBit (3 &&& u64not 1) 0 = (Nat.testBit 3 0 && !Nat.testBit 1 0) ∧
    triggerMany [3, 5] 0 &&& 1 = 1 ∧
    (trigger .Config 0).interrupt_status &&& 2 = 2 :=
  ⟨C9_interrupt_adapter.1 3 5,
    C9_interrupt_adapter.2.1 5,
    C9_interrupt_adapter.2.2.1 { emptyDev with interrupt_status := 3 } [1, 0, 0, 0] (by decide),
    C9_interrupt_adapter.2.2.2.1 3 1 0 (by norm_num [U64_MOD]) (by norm_num [U32_MOD]),
    C9_interrupt_adapter.2.2.2.2.1 [3, 5] 0 (by decide),
    C9_interrupt_adapter.2.2.2.2.2 0⟩

/-! ## Claim C5 -/

/-- Claim C5: every single MMIO write takes at most one of the two
post-write actions: it never both pushes an activation record (and
returns its barrier) and performs a device reset, a barrier is returned
exactly when an activator is pushed, and the two triggering conditions
are mutually exclusive in every state because one requires the device
inactive and the other active. -/
theorem C5_at_most_one_action :
    (∀ (d : Device) (s : VirtioMmioDevice) (offset : Nat) (data : List Nat),
      ((write d s offset data).pushed && (write d s offset data).resetPerformed) = false ∧
      ((write d s offset data).barrier && (write d s offset data).resetPerformed) = false ∧
      (write d s offset data).barrier = (write d s offset data).pushed) ∧
    (∀ t : VirtioMmioDevice,
      (needs_activation t && (t.device_activated && is_driver_init t)) = false) := by
  constructor
  · intro d s offset data
    simp only [write]
    split_ifs <;> exact ⟨rfl, rfl, rfl⟩
  · intro t
    cases h : t.device_activated <;> simp [needs_activation, h]

/-! ## Claim C4 -/

/-- Claim C4: a 4-byte control-window write after which the transport is
activated and the driver status is zero invokes the backing device's
reset.  When reset is supported, the returned interrupt adapter is
re-installed, the activated flag is cleared, every queue is reset (ready
cleared, size restored to its maximum) and the queue selector is zeroed;
when reset is unsupported, the driver status becomes the FAILED bit
(128, equal to OR-ing it onto the prior zero) and the transport stays
activated. -/
theorem C4_driver_reset (d : Device) (s : VirtioMmioDevice) (offset : Nat) (data : List Nat)
    (_hlen : data.length = 4) (_hoff : offset ≤ 0xff)
    (hact : (writePre s offset data).device_activated = true)
    (hinit : (writePre s offset data).driver_status = 0) :
    (write d s offset data).resetPerformed = true ∧
    (d.reset_supported = true →
      (write d s offset data).state.virtio_interrupt = true ∧
      (write d s offset data).state.device_activated = false ∧
      (write d s offset data).state.queue_select = 0 ∧
      (write d s offset data).state.queues = (writePre s offset data).queues.map Queue.reset ∧
      ∀ q ∈ (write d s offset data).state.queues, q.ready = false ∧ q.size = q.max_size) ∧
    (d.reset_supported = false →
      (write d s offset data).state.driver_status = DEVICE_FAILED ∧
      (write d s offset data).state.device_activated = true) := by
  have hna : needs_activation (writePre s offset data) = false := by
    simp [needs_activation, hact]
  have hini : is_driver_init (writePre s offset data) = true := by
    simp [is_driver_init, hinit, DEVICE_INIT]
  by_cases hr : d.reset_supported
  · simp only [write, hna, hact, hini, hr, Bool.false_eq_true, if_false, Bool.and_self,
      if_true, Bool.true_and]
    refine ⟨trivial, fun _ => ⟨trivial, trivial, trivial, trivial, ?_⟩,
      fun hc => absurd hc (by decide)⟩
    intro q hq
    rw [List.mem_map] at hq
    obtain ⟨q0, _, rfl⟩ := hq
    exact ⟨rfl, rfl⟩
  · rw [Bool.not_eq_true] at hr
    simp only [write, hna, hact, hini, hr, Bool.false_eq_true, if_false, Bool.and_self,
      if_true, Bool.true_and]
    exact ⟨trivial, fun hc => absurd hc (by decide), fun _ => ⟨trivial, trivial⟩⟩

/-- Witness for C4: the reset theorem applied to the concrete activated
transport, both with a device supporting reset and with one that does
not. -/
theorem C4_witness :
    (writePre sAct 0x70 [0, 0, 0, 0]).device_activated = true ∧
    (writePre sAct 0x70 [0, 0, 0, 0]).driver_status = 0 ∧
    (write dW sAct 0x70 [0, 0, 0, 0]).resetPerformed = true ∧
    (write dW sAct 0x70 [0, 0, 0, 0]).state.device_activated = false ∧
    (write dNoReset sAct 0x70 [0, 0, 0, 0]).state.driver_status = DEVICE_FAILED ∧
    (write dNoReset sAct 0x70 [0, 0, 0, 0]).state.device_activated = true :=
  ⟨by decide, by decide,
    (C4_driver_reset dW sAct 0x70 [0, 0, 0, 0] (by decide) (by decide) (by decide) (by decide)).1,
    ((C4_driver_reset dW sAct 0x70 [0, 0, 0, 0] (by decide) (by decide) (by decide)
      (by decide)).2.1 rfl).2.1,
    ((C4_driver_reset dNoReset sAct 0x70 [0, 0, 0, 0] (by decide) (by decide) (by decide)
      (by decide)).2.2 rfl).1,
    ((C4_driver_reset dNoReset sAct 0x70 [0, 0, 0, 0] (by decide) (by decide) (by decide)
      (by decide)).2.2 rfl).2⟩

/-! ## Claim C10 -/

/-- Claim C10 is false on the code: the post-write reset check runs even
for a malformed-width control write, so in a state with the device
activated and driver status zero (reachable through restore), a 2-byte
write to offset 0x30 changes `queue_select` from 5 to 0 although no
register was decoded. -/
theorem C10_counterexample :
    sXreset.queue_select = 5 ∧
    (0x30 : Nat) ≤ 0xff ∧
    ([0, 0] : List Nat).length ≠ 4 ∧
    (write dW sXreset 0x30 [0, 0]).state.queue_select = 0 := by
  decide

/-- Claim C10 (amended): a control-window access of width other than 4
bytes decodes no register: provided the post-write reset trigger is not
armed (it is not the case that the device is activated with driver
status zero), the write leaves `driver_status`, `interrupt_status`, the
three selectors and `shm_region_select` unchanged; a read of width other
than 4 bytes, or a 4-byte read at a control offset outside the decoded
set, leaves the data buffer untouched (and reads never modify transport
state). -/
theorem C10_frame :
    (∀ (d : Device) (s : VirtioMmioDevice) (offset : Nat) (data : List Nat),
      offset ≤ 0xff → data.length ≠ 4 →
      (s.device_activated = true → s.driver_status ≠ 0) →
      (write d s offset data).state.driver_status = s.driver_status ∧
      (write d s offset data).state.interrupt_status = s.interrupt_status ∧
      (write d s offset data).state.features_select = s.features_select ∧
      (write d s offset data).state.acked_features_select = s.acked_features_select ∧
      (write d s offset data).state.queue_select = s.queue_select ∧
      (write d s offset data).state.shm_region_select = s.shm_region_select) ∧
    (∀ (d : Device) (s : VirtioMmioDevice) (offset len : Nat),
      offset ≤ 0xff → len ≠ 4 → read d s offset len = .noUpdate) ∧
    (∀ (d : Device) (s : VirtioMmioDevice) (offset : Nat),
      offset ≤ 0xff → ¬ decodedControlRead offset → read d s offset 4 = .noUpdate) := by
  refine ⟨?_, ?_, ?_⟩
  · intro d s offset data hoff hlen hsafe
    have hpre : writePre s offset data = s := by
      unfold writePre
      rw [if_pos hoff, if_neg hlen]
    simp only [write, hpre]
    by_cases hna : needs_activation s = true
    · rw [if_pos hna]
      exact ⟨rfl, rfl, rfl, rfl, rfl, rfl⟩
    · rw [if_neg hna]
      have hc : ¬ (s.device_activated && is_driver_init s) = true := by
        intro hcc
        rw [Bool.and_eq_true] at hcc
        exact (hsafe hcc.1) (by simpa [is_driver_init, DEVICE_INIT] using hcc.2)
      rw [if_neg hc]
      exact ⟨rfl, rfl, rfl, rfl, rfl, rfl⟩
  · intro d s offset len hoff hlen
    unfold read
    rw [if_pos hoff, if_neg hlen]
  · intro d s offset hoff hnd
    unfold decodedControlRead at hnd
    unfold read
    rw [if_pos hoff, if_pos rfl, if_neg (show ¬offset = 0x0 by omega),
      if_neg (show ¬offset = 0x04 by omega), if_neg (show ¬offset = 0x08 by omega),
      if_neg (show ¬offset = 0x0c by omega), if_neg (show ¬offset = 0x10 by omega),
      if_neg (show ¬offset = 0x34 by omega), if_neg (show ¬offset = 0x44 by omega),
      if_neg (show ¬offset = 0x60 by omega), if_neg (show ¬offset = 0x70 by omega),
      if_neg (show ¬offset = 0xfc by omega),
      if_neg (show ¬(0xb0 ≤ offset ∧ offset ≤ 0xbc) by omega)]

/-- Witness for C10: the frame theorem applied to a 2-byte write at
0x30, a 2-byte read at 0x30, and a 4-byte read at the undecoded control
offset 0x28. -/
theorem C10_witness :
    (write dW sAct 0x30 [0, 0]).state.queue_select = sAct.queue_select ∧
    read dW sAct 0x30 2 = .noUpdate ∧
    read dW sAct 0x28 4 = .noUpdate :=
  ⟨(C10_frame.1 dW sAct 0x30 [0, 0] (by decide) (by decide)
      (fun _ => by decide)).2.2.2.2.1,
    C10_frame.2.1 dW sAct 0x30 2 (by decide) (by decide),
    C10_frame.2.2 dW sAct 0x28 (by decide) (by decide)⟩

/-! ## Claim C6 -/

lemma write_no_action (d : Device) (s : VirtioMmioDevice) (off : Nat) (data : List Nat)
    (hact : s.device_activated = false)
    (hready : is_driver_ready (writePre s off data) = false) :
    write d s off data =
      { state := writePre s off data, barrier := false, pushed := false,
        resetPerformed := false } := by
  have h1 : ¬ needs_activation (writePre s off data) = true := by
    simp [needs_activation, hready]
  have h2 : ¬ ((writePre s off data).device_activated
      && is_driver_init (writePre s off data)) = true := by
    simp [writePre_device_activated, hact]
  simp only [write]
  rw [if_neg h1, if_neg h2]

/-- Claim C6: along any sequence of MMIO writes from a state with the
device unactivated, if the decoded register state never has the
driver-ready status word (ACKNOWLEDGE, DRIVER, DRIVER_OK and
FEATURES_OK set and FAILED clear), then no write returns a barrier, no
activation record is ever pushed onto `pending_activations`, and
`device_activated` stays false after every write. -/
theorem C6_no_activation (d : Device) (ws : List MmioWrite) :
    ∀ s : VirtioMmioDevice, s.device_activated = false → neverReady d s ws = true →
      anyBarrier d s ws = false ∧ anyPush d s ws = false ∧
      everActivated d s ws = false ∧
      (runWrites d s ws).pending_activations = s.pending_activations := by
  induction ws with
  | nil =>
    intro s _ _
    exact ⟨rfl, rfl, rfl, rfl⟩
  | cons w ws ih =>
    intro s hact hnr
    simp only [neverReady, Bool.and_eq_true, Bool.not_eq_eq_eq_not, Bool.not_true] at hnr
    obtain ⟨hready, hrest⟩ := hnr
    have hw := write_no_action d s w.offset w.data hact hready
    have hact2 : (write d s w.offset w.data).state.device_activated = false := by
      rw [hw]
      exact (writePre_device_activated s w.offset w.data).trans hact
    have hpend : (write d s w.offset w.data).state.pending_activations =
        s.pending_activations := by
      rw [hw]
      exact writePre_pending s w.offset w.data
    obtain ⟨ihb, ihp, ihe, ihpend⟩ := ih (write d s w.offset w.data).state hact2 hrest
    refine ⟨?_, ?_, ?_, ?_⟩
    · simp only [anyBarrier, ihb, Bool.or_false]
      rw [hw]
    · simp only [anyPush, ihp, Bool.or_false]
      rw [hw]
    · simp only [everActivated, ihe, Bool.or_false]
      exact hact2
    · simp only [runWrites]
      rw [ihpend, hpend]

/-- Witness for C6: a two-write sequence that acknowledges the device
and then fails it never activates anything. -/
theorem C6_witness :
    (VirtioMmio.new dW).device_activated = false ∧
    neverReady dW (VirtioMmio.new dW)
      [{ offset := 0x70, data := [1, 0, 0, 0] },
       { offset := 0x70, data := [128, 0, 0, 0] }] = true ∧
    (anyBarrier dW (VirtioMmio.new dW)
      [{ offset := 0x70, data := [1, 0, 0, 0] },
       { offset := 0x70, data := [128, 0, 0, 0] }] = false ∧
     anyPush dW (VirtioMmio.new dW)
      [{ offset := 0x70, data := [1, 0, 0, 0] },
       { offset := 0x70, data := [128, 0, 0, 0] }] = false ∧
     everActivated dW (VirtioMmio.new dW)
      [{ offset := 0x70, data := [1, 0, 0, 0] },
       { offset := 0x70, data := [128, 0, 0, 0] }] = false ∧
     (runWrites dW (VirtioMmio.new dW)
      [{ offset := 0x70, data := [1, 0, 0, 0] },
       { offset := 0x70, data := [128, 0, 0, 0] }]).pending_activations =
        (VirtioMmio.new dW).pending_activations) :=
  ⟨by decide, by decide,
    C6_no_activation dW
      [{ offset := 0x70, data := [1, 0, 0, 0] },
       { offset := 0x70, data := [128, 0, 0, 0] }]
      (VirtioMmio.new dW) (by decide) (by decide)⟩

/-! ## Restore-path elimination lemmas (for C7 and C8) -/

lemma restoreQueue_ok (mem : GuestMemory) (q : Queue) (st : QueueState) (q2 : Queue)
    (h : restoreQueue mem q st = .ok q2) :
    q2.max_size = q.max_size ∧ q2.size = st.size ∧ q2.ready = st.ready ∧
    q2.desc_table = st.desc_table ∧ q2.avail_ring = st.avail_ring ∧
    q2.used_ring = st.used_ring ∧ q2.next_avail = q2.next_used ∧
    mem.readUsedIdx st.used_ring = some q2.next_avail := by
  simp only [restoreQueue] at h
  cases hr : mem.readUsedIdx st.used_ring with
  | none => rw [hr] at h; simp at h
  | some idx =>
    rw [hr] at h
    simp only [Except.ok.injEq] at h
    subst h
    refine ⟨rfl, rfl, rfl, rfl, rfl, rfl, rfl, ?_⟩
    rfl

lemma restoreQueue_error (mem : GuestMemory) (q : Queue) (st : QueueState) (e : RestoreError)
    (h : restoreQueue mem q st = .error e) : e = .QueueRingIndex := by
  simp only [restoreQueue] at h
  cases hr : mem.readUsedIdx st.used_ring with
  | none => rw [hr] at h; simp at h; exact h.symm
  | some idx => rw [hr] at h; simp at h

lemma restoreQueues_cons_ok (mem : GuestMemory) (q : Queue) (qs : List Queue)
    (st : QueueState) (sts : List QueueState) (out : List Queue)
    (h : restoreQueues mem (q :: qs) (st :: sts) = .ok out) :
    ∃ q2 rest, restoreQueue mem q st = .ok q2 ∧
      restoreQueues mem qs sts = .ok rest ∧ out = q2 :: rest := by
  simp only [restoreQueues] at h
  cases hq : restoreQueue mem q st with
  | error e => rw [hq] at h; simp at h
  | ok q2 =>
    rw [hq] at h
    cases hr : restoreQueues mem qs sts with
    | error e => rw [hr] at h; simp at h
    | ok rest =>
      rw [hr] at h
      simp only [Except.ok.injEq] at h
      exact ⟨q2, rest, rfl, rfl, h.symm⟩

lemma restoreQueues_error (mem : GuestMemory) :
    ∀ (tqs : List Queue) (sts : List QueueState) (e : RestoreError),
      tqs.length = sts.length → restoreQueues mem tqs sts = .error e →
      e = .QueueRingIndex := by
  intro tqs
  induction tqs with
  | nil =>
    intro sts e hlen h
    cases sts with
    | nil => simp [restoreQueues] at h
    | cons st sts => simp at hlen
  | cons q qs ih =>
    intro sts e hlen h
    cases sts with
    | nil => simp at hlen
    | cons st sts =>
      simp only [restoreQueues] at h
      cases hq : restoreQueue mem q st with
      | error e2 =>
        rw [hq] at h
        simp only [Except.error.injEq] at h
        rw [← h]
        exact restoreQueue_error mem q st e2 hq
      | ok q2 =>
        rw [hq] at h
        cases hr : restoreQueues mem qs sts with
        | error e3 =>
          rw [hr] at h
          simp only [Except.error.injEq] at h
          rw [← h]
          exact ih sts e3 (by simpa using hlen) hr
        | ok rest => rw [hr] at h; simp at h

lemma restoreQueues_spec (mem : GuestMemory) :
    ∀ (tqs : List Queue) (sts : List QueueState) (out : List Queue),
      restoreQueues mem tqs sts = .ok out →
      out.length = tqs.length ∧
      ∀ i : Nat, i < out.length → i < sts.length →
        (out.getD i defaultQueue).next_avail = (out.getD i defaultQueue).next_used ∧
        mem.readUsedIdx ((sts.getD i defaultQueueState).used_ring) =
          some ((out.getD i defaultQueue).next_avail) := by
  intro tqs
  induction tqs with
  | nil =>
    intro sts out h
    cases sts <;> simp only [restoreQueues, Except.ok.injEq] at h
    · subst h; exact ⟨rfl, fun i hi _ => absurd hi (by simp)⟩
    · subst h; exact ⟨rfl, fun i hi _ => absurd hi (by simp)⟩
  | cons q qs ih =>
    intro sts out h
    cases sts with
    | nil => simp [restoreQueues] at h
    | cons st sts =>
      obtain ⟨q2, rest, hq, hr, rfl⟩ := restoreQueues_cons_ok mem q qs st sts out h
      obtain ⟨hlen, hidx⟩ := ih sts rest hr
      obtain ⟨_, _, _, _, _, _, hna, hread⟩ := restoreQueue_ok mem q st q2 hq
      refine ⟨by simp [hlen], ?_⟩
      intro i hi hsi
      cases i with
      | zero => exact ⟨hna, hread⟩
      | succ j =>
        simp only [List.getD_cons_succ]
        exact hidx j (by simpa using hi) (by simpa using hsi)

lemma restoreQueues_state (mem : GuestMemory) :
    ∀ (tqs : List Queue) (sts : List QueueState) (out : List Queue),
      tqs.map Queue.max_size = sts.map QueueState.max_size →
      restoreQueues mem tqs sts = .ok out →
      out.map Queue.queueState = sts := by
  intro tqs
  induction tqs with
  | nil =>
    intro sts out hmax h
    cases sts with
    | nil =>
      simp only [restoreQueues, Except.ok.injEq] at h
      subst h; rfl
    | cons st sts => simp at hmax
  | cons q qs ih =>
    intro sts out hmax h
    cases sts with
    | nil => simp at hmax
    | cons st sts =>
      simp only [List.map_cons, List.cons.injEq] at hmax
      obtain ⟨hm1, hm2⟩ := hmax
      obtain ⟨q2, rest, hq, hr, rfl⟩ := restoreQueues_cons_ok mem q qs st sts out h
      obtain ⟨h1, h2, h3, h4, h5, h6, _, _⟩ := restoreQueue_ok mem q st q2 hq
      have hst : q2.queueState = st := by
        cases st
        simp only [Queue.queueState, QueueState.mk.injEq]
        simp only [QueueState.mk.injEq] at *
        exact ⟨h1.trans hm1, h2, h3, h4, h5, h6⟩
      simp only [List.map_cons, hst, ih sts rest hm2 hr]

lemma set_state_ok (mem : GuestMemory) (s : VirtioMmioDevice) (st : VirtioMmioDeviceState)
    (s2 : VirtioMmioDevice) (h : set_state mem s st = .ok s2) :
    ∃ outqs, restoreQueues mem s.queues st.queues = .ok outqs ∧
      s2 = { s with
             device_activated := st.device_activated
             features_select := st.features_select
             acked_features_select := st.acked_features_select
             queue_select := st.queue_select
             interrupt_status := st.interrupt_status
             driver_status := st.driver_status
             queues := outqs
             shm_region_select := st.shm_region_select } := by
  simp only [set_state] at h
  cases hq : restoreQueues mem s.queues st.queues with
  | error e => rw [hq] at h; simp at h
  | ok outqs =>
    rw [hq] at h
    simp only [Except.ok.injEq] at h
    exact ⟨outqs, rfl, h.symm⟩

lemma set_state_error (mem : GuestMemory) (s : VirtioMmioDevice) (st : VirtioMmioDeviceState)
    (e : RestoreError) (hlen : s.queues.length = st.queues.length)
    (h : set_state mem s st = .error e) : e = .QueueRingIndex := by
  simp only [set_state] at h
  cases hq : restoreQueues mem s.queues st.queues with
  | error e2 =>
    rw [hq] at h
    simp only [Except.error.injEq] at h
    rw [← h]
    exact restoreQueues_error mem s.queues st.queues e2 hlen hq
  | ok outqs => rw [hq] at h; simp at h

lemma set_state_state (mem : GuestMemory) (s : VirtioMmioDevice)
    (st : VirtioMmioDeviceState) (s2 : VirtioMmioDevice)
    (hmax : s.queues.map Queue.max_size = st.queues.map QueueState.max_size)
    (h : set_state mem s st = .ok s2) :
    state s2 = st := by
  obtain ⟨outqs, hq, rfl⟩ := set_state_ok mem s st s2 h
  have hqs := restoreQueues_state mem s.queues st.queues outqs hmax hq
  cases st
  simp only [state, VirtioMmioDeviceState.mk.injEq]
  exact ⟨trivial, trivial, trivial, trivial, trivial, trivial, hqs, trivial⟩

/-! ## Claim C7 -/

/-- Claim C7: snapshot, then restore into a transport whose backing
device declares the same queue count and maximum sizes, then snapshot
again is a fixed point: when the restore succeeds, the second snapshot
record equals the first in every field, including the activation flag,
the three selectors, interrupt and driver status, the shared-memory
selector, and every per-queue record. -/
theorem C7_snapshot_roundtrip (d : Device) (mem : GuestMemory) (s t t2 : VirtioMmioDevice)
    (hmax : t.queues.map Queue.max_size = s.queues.map Queue.max_size)
    (hok : restore d mem t (some (state s)) = .ok t2) :
    state t2 = state s := by
  simp only [restore] at hok
  cases hset : set_state mem t (state s) with
  | error e => rw [hset] at hok; simp at hok
  | ok s1 =>
    rw [hset] at hok
    dsimp only at hok
    have hmax2 : t.queues.map Queue.max_size = (state s).queues.map QueueState.max_size := by
      rw [hmax]
      simp only [state, List.map_map]
      rfl
    have hs1 : state s1 = state s := set_state_state mem t (state s) s1 hmax2 hset
    by_cases hcond : (s1.device_activated && is_driver_ready s1) = true
    · rw [if_pos hcond] at hok
      by_cases hao : d.activate_ok = true
      · rw [if_pos hao] at hok
        simp only [Except.ok.injEq] at hok
        subst hok
        have hda : s1.device_activated = true := ((Bool.and_eq_true _ _).mp hcond).1
        have hfix : state { s1 with virtio_interrupt := false, device_activated := true } =
            state s1 := by
          simp [state, hda]
        rw [hfix, hs1]
      · rw [if_neg hao] at hok; simp at hok
    · rw [if_neg hcond] at hok
      simp only [Except.ok.injEq] at hok
      subst hok
      exact hs1

/-- Witness for C7: a concrete configured transport snapshotted,
restored into a fresh transport over the same backing device, and
snapshotted again. -/
theorem C7_witness :
    ((VirtioMmio.new dW).queues.map Queue.max_size = sW7.queues.map Queue.max_size) ∧
    restore dW memW (VirtioMmio.new dW) (some (state sW7)) =
      .ok (exOk (restore dW memW (VirtioMmio.new dW) (some (state sW7)))) ∧
    state (exOk (restore dW memW (VirtioMmio.new dW) (some (state sW7)))) = state sW7 :=
  ⟨by decide, by rfl,
    C7_snapshot_roundtrip dW memW sW7 (VirtioMmio.new dW) _ (by decide) (by rfl)⟩

/-! ## Claim C8 -/

/-- Claim C8: after a successful restore, every queue has its
`next_avail` and `next_used` cursors equal, both set to the used index
read from guest memory at the used-ring address the restore installed
for that queue; and when the snapshot has the right number of queue
records, a failing used-index read makes the restore fail exactly with
the queue-ring-index error. -/
theorem C8_restore_cursors :
    (∀ (mem : GuestMemory) (s : VirtioMmioDevice) (st : VirtioMmioDeviceState)
        (s2 : VirtioMmioDevice),
      set_state mem s st = .ok s2 →
      ∀ i : Nat, i < s2.queues.length → i < st.queues.length →
        (s2.queues.getD i defaultQueue).next_avail = (s2.queues.getD i defaultQueue).next_used ∧
        mem.readUsedIdx ((st.queues.getD i defaultQueueState).used_ring) =
          some ((s2.queues.getD i defaultQueue).next_avail)) ∧
    (∀ (mem : GuestMemory) (s : VirtioMmioDevice) (st : VirtioMmioDeviceState)
        (e : RestoreError),
      s.queues.length = st.queues.length → set_state mem s st = .error e →
      e = .QueueRingIndex) := by
  constructor
  · intro mem s st s2 h i hi hsi
    obtain ⟨outqs, hq, rfl⟩ := set_state_ok mem s st s2 h
    exact (restoreQueues_spec mem s.queues st.queues outqs hq).2 i hi hsi
  · intro mem s st e hlen h
    exact set_state_error mem s st e hlen h

/-- Witness for C8: the cursor theorem applied to the concrete restore
that reads used index 7, plus the failing-memory restore yielding the
queue-ring-index error. -/
theorem C8_witness :
    ((exOk (set_state memW (VirtioMmio.new dW) (state sW7))).queues.getD 0
        defaultQueue).next_avail =
      ((exOk (set_state memW (VirtioMmio.new dW) (state sW7))).queues.getD 0
        defaultQueue).next_used ∧
    memW.readUsedIdx (((state sW7).queues.getD 0 defaultQueueState).used_ring) =
      some (((exOk (set_state memW (VirtioMmio.new dW) (state sW7))).queues.getD 0
        defaultQueue).next_avail) ∧
    set_state memFail (VirtioMmio.new dW) (state sW7) = .error .QueueRingIndex :=
  ⟨(C8_restore_cursors.1 memW (VirtioMmio.new dW) (state sW7)
      (exOk (set_state memW (VirtioMmio.new dW) (state sW7))) (by rfl) 0
      (by decide) (by decide)).1,
    (C8_restore_cursors.1 memW (VirtioMmio.new dW) (state sW7)
      (exOk (set_state memW (VirtioMmio.new dW) (state sW7))) (by rfl) 0
      (by decide) (by decide)).2,
    by rfl⟩

end VirtioMmio
